import Mathlib

/-!
Shallow embedding of `interestingness_xrl/explainability/analysis/__init__.py`
(class `AnalysisBase`): the data model, the shared persistence / reporting
methods (`save_report`, `save_visual_report`, `save_json`, `load_json`) and
the variant contract (`difference_to`, the query methods, the hooks).

Python's side effects are made explicit: the filesystem, the process-global
jsonpickle configuration and the console are threaded as state; a raised
exception is an `Option Err` paired with the state at the moment the
exception propagates out of the method (so post-state on failure paths is
observable, as the claims require).
-/

namespace InterestingnessXRL

/-- A raised Python exception, by kind. -/
inductive Err where
  | ioError
  | decodeError
  | typeError
  | attributeError
  | reportError
  | visualError
deriving DecidableEq, Repr

/-- One recorded transition `(s, a, r, ns)`: state, action, reward, next state
(rewards are modelled as integers; only their equality is ever used). -/
structure Sample where
  s : Nat
  a : Nat
  r : Int
  ns : Nat
deriving DecidableEq, Repr

/-- Modelled from the spec: the variant-defined persisted findings of a
concrete analysis (concrete variants are not under `src/`): a mapping from
interestingness-element name to the samples belonging to it, as in the
spec's "RareOutcome" example. -/
structure AData where
  elements : List (String × List Sample)
deriving DecidableEq, Repr

/-- The `ScenarioHelper` collaborator: the contract only requires a nested
configuration value retrievable as `helper.config`. -/
structure Helper where
  config : Nat
deriving DecidableEq, Repr

/-- The runtime fields of a concrete analysis object: the transient
collaborator references (`agent`, `helper`, `config`, `none` = Python
`None` / absent) set by `__init__`, a concrete-variant tag, and the
variant's persisted findings. -/
structure Analysis where
  variant : String
  agent : Option Nat
  helper : Option Helper
  config : Option Nat
  data : AData
deriving DecidableEq, Repr

/-- `AnalysisBase.__init__(helper, agent)`: binds the helper, its config and
the agent on a fresh instance of the given variant. -/
def AnalysisBase.init (variant : String) (helper : Helper) (agent : Nat)
    (data : AData) : Analysis :=
  { variant := variant, agent := some agent, helper := some helper,
    config := some helper.config, data := data }

/-- Options of one jsonpickle encoder backend (`sort_keys`, `indent`). -/
structure EncOpts where
  sort_keys : Bool
  indent : Nat
deriving DecidableEq, Repr

/-- Process-global jsonpickle configuration: the preferred backend and the
per-backend encoder options. -/
structure JsonpickleState where
  preferred_backend : String
  encoder_options : List (String × EncOpts)
deriving DecidableEq, Repr

/-- `jsonpickle.set_preferred_backend(b)`: mutates the global state. -/
def set_preferred_backend (jp : JsonpickleState) (b : String) : JsonpickleState :=
  { jp with preferred_backend := b }

/-- `jsonpickle.set_encoder_options(b, ...)`: records the options for backend
`b` in the global state. -/
def set_encoder_options (jp : JsonpickleState) (b : String) (o : EncOpts) :
    JsonpickleState :=
  { jp with encoder_options := (b, o) :: jp.encoder_options.filter (fun q => q.1 != b) }

/-- The text produced by `jsonpickle.encode`, modelled abstractly as a record
of what was rendered: the backend used, the effective encoder options
(key sorting and indentation width) and the serialized object graph. -/
structure JsonText where
  backend : String
  sort_keys : Bool
  indent : Nat
  payload : Analysis
deriving DecidableEq, Repr

/-- jsonpickle's default encoder options (keys unsorted, no indentation),
in effect when `set_encoder_options` was never called for the backend. -/
def defaultEncOpts : EncOpts := ⟨false, 0⟩

/-- Model of the third-party jsonpickle library's `encode`: serializes the
full object graph it is given, under the preferred backend's configured
options. -/
def jsonpickle_encode (jp : JsonpickleState) (a : Analysis) : JsonText :=
  let opts := (jp.encoder_options.lookup jp.preferred_backend).getD defaultEncOpts
  ⟨jp.preferred_backend, opts.sort_keys, opts.indent, a⟩

/-- The content of one file on disk: either plain text (as written by report
saving, or any hand-made file) or the serialized form written by
`save_json`. -/
inductive FileContent where
  | text (s : String)
  | json (j : JsonText)
deriving DecidableEq, Repr

/-- The filesystem state: file contents by path, the set of open file
handles, and the environment's failure behavior (paths where opening for
writing is denied, e.g. read-only, and paths where writing fails, e.g. a
full device). -/
structure FS where
  files : List (String × FileContent)
  openHandles : List String
  roPaths : List String
  fullPaths : List String
deriving DecidableEq, Repr

/-- Replace the content stored at path `p`. -/
def setFile (files : List (String × FileContent)) (p : String) (c : FileContent) :
    List (String × FileContent) :=
  (p, c) :: files.filter (fun q => q.1 != p)

/-- `open(p, 'w')`: raises `IOError` on a denied path; otherwise truncates
the file to empty and opens a handle on it. -/
def pyOpenW (fs : FS) (p : String) : Except Err FS :=
  if p ∈ fs.roPaths then .error .ioError
  else .ok { fs with files := setFile fs.files p (.text ""),
                     openHandles := p :: fs.openHandles }

/-- A write through an open handle on path `p`: raises `IOError` when the
device is full, otherwise stores the content. -/
def pyWrite (fs : FS) (p : String) (c : FileContent) : Except Err FS :=
  if p ∈ fs.fullPaths then .error .ioError
  else .ok { fs with files := setFile fs.files p c }

/-- Closing the handle open on path `p` (what leaving a `with open(...)`
block does, on every exit path). -/
def closeH (fs : FS) (p : String) : FS :=
  { fs with openHandles := fs.openHandles.erase p }

/-- The process state threaded through `save_json`: the analysis instance,
the global jsonpickle configuration and the filesystem. -/
structure SJState where
  analysis : Analysis
  jp : JsonpickleState
  fs : FS
deriving DecidableEq, Repr

/-- `AnalysisBase.save_json(json_file_path)`, line by line:
saves `agent`/`helper` into locals, nulls the three transient fields,
sets the global jsonpickle backend and encoder options, opens the path for
writing inside a `with` block, encodes and writes, and after the block
restores `agent`, `helper` and `config = helper.config`. There is no
`try/finally`: when `open` or `write` raises, the restoring assignments
are never executed and the exception propagates. -/
def save_json (st : SJState) (path : String) : SJState × Option Err :=
  let agent := st.analysis.agent
  let helper := st.analysis.helper
  let a1 := { st.analysis with agent := none, helper := none, config := none }
  let jp1 := set_encoder_options (set_preferred_backend st.jp "json") "json" ⟨true, 4⟩
  let st1 : SJState := ⟨a1, jp1, st.fs⟩
  match pyOpenW st1.fs path with
  | .error e => (st1, some e)
  | .ok fs1 =>
    let json_str := jsonpickle_encode jp1 a1
    match pyWrite fs1 path (.json json_str) with
    | .error e => ({ st1 with fs := closeH fs1 path }, some e)
    | .ok fs2 =>
      let fs3 := closeH fs2 path
      match helper with
      | none =>
        -- `self.agent = agent; self.helper = None;` then `helper.config`
        -- raises AttributeError, leaving `config` unrestored
        (⟨{ a1 with agent := agent, helper := none }, jp1, fs3⟩, some .attributeError)
      | some h =>
        (⟨{ a1 with agent := agent, helper := some h, config := some h.config },
          jp1, fs3⟩, none)

/-- `open(p)` for reading: returns the content, or raises `IOError` when the
file does not exist. -/
def pyOpenR (fs : FS) (p : String) : Except Err FileContent :=
  match fs.files.lookup p with
  | none => .error .ioError
  | some c => .ok c

/-- Model of the third-party jsonpickle library's `decode`: inverts `encode`
on text it produced, and raises on malformed or incompatible text. -/
def jsonpickle_decode : FileContent → Except Err Analysis
  | .json j => .ok j.payload
  | .text _ => .error .decodeError

/-- Modelled from the spec: `_after_loaded_json` (abstract in `src/`,
implemented by concrete variants elsewhere in the repository) repairs
fields that cannot survive the round trip; the modelled variant persists
all of its findings as plain structured data, so the repair is the
identity. -/
def after_loaded_json (a : Analysis) : Analysis := a

/-- The outcome of `load_json`: the returned object (if any), how many times
`_after_loaded_json` was invoked, and the propagated exception (if any). -/
structure LoadResult where
  result : Option Analysis
  hookCalls : Nat
  err : Option Err
deriving DecidableEq, Repr

/-- `AnalysisBase.load_json(json_file_path)` (static): opens the file, reads
and decodes it, invokes `_after_loaded_json()` on the decoded object and
returns it; a read or decode failure propagates before the hook runs. -/
def load_json (fs : FS) (path : String) : LoadResult :=
  match pyOpenR fs path with
  | .error e => ⟨none, 0, some e⟩
  | .ok content =>
    match jsonpickle_decode content with
    | .error e => ⟨none, 0, some e⟩
    | .ok analysis => ⟨some (after_loaded_json analysis), 1, none⟩

/-- Modelled from the spec: `get_interestingness_names` (abstract in `src/`)
returns the names of the interesting elements this analysis holds. -/
def get_interestingness_names (a : Analysis) : List String :=
  a.data.elements.map Prod.fst

/-- Modelled from the spec: `get_sample_interesting_aspects(s, a, r, ns)`
(abstract in `src/`) returns the names of the elements in which the given
sample is present, or the empty list. -/
def get_sample_interesting_aspects (an : Analysis) (s a : Nat) (r : Int)
    (ns : Nat) : List String :=
  (an.data.elements.filter (fun p => (Sample.mk s a r ns) ∈ p.2)).map Prod.fst

/-- Modelled from the spec: `get_stats` (abstract in `src/`) returns a
mapping from statistic name to value summarizing the analysis, here the
count of samples per element. -/
def get_stats (a : Analysis) : List (String × Nat) :=
  a.data.elements.map (fun p => (p.1, p.2.length))

/-- Modelled from the spec: `difference_to(other)` (abstract in `src/`,
implemented per concrete variant) fails with a type/contract error when
`other` is of a different variant, and otherwise returns a new analysis
holding the set difference of the findings: an element survives iff it is
in `self` and its sample set is not covered by `other`'s. -/
def difference_to (a b : Analysis) : Except Err Analysis :=
  if a.variant ≠ b.variant then .error .typeError
  else .ok { a with data := ⟨a.data.elements.filterMap (fun p =>
    match b.data.elements.lookup p.1 with
    | none => some p
    | some ys =>
      let d := p.2.filter (fun s => s ∉ ys)
      if d.isEmpty then none else some (p.1, d))⟩ }

/-- The state threaded through `save_report`: the filesystem and the
standard output stream. -/
structure RState where
  fs : FS
  console : List String
deriving DecidableEq, Repr

/-- Modelled from the spec: `_save_report(file, write_console)` (abstract in
`src/`) writes the variant's textual rendering to the open sink, mirrors
it to standard output when `write_console` is set, and may raise midway
(modelled by the `bodyFails` behavior input). -/
def save_report_inner (st : RState) (path : String) (writeConsole : Bool)
    (reportText : String) (bodyFails : Bool) : RState × Option Err :=
  let st := { st with console :=
    if writeConsole then st.console ++ [reportText] else st.console }
  if bodyFails then (st, some .reportError)
  else
    match pyWrite st.fs path (.text reportText) with
    | .error e => (st, some e)
    | .ok fs1 => ({ st with fs := fs1 }, none)

/-- `AnalysisBase.save_report(file_path, write_console)`: opens the path for
writing inside a `with` block (truncating), delegates to `_save_report`,
and closes the handle on every exit path; a failure of the body
propagates unwrapped after the close. -/
def save_report (st : RState) (path : String) (writeConsole : Bool)
    (reportText : String) (bodyFails : Bool) : RState × Option Err :=
  match pyOpenW st.fs path with
  | .error e => (st, some e)
  | .ok fs1 =>
    let (st2, err) := save_report_inner { st with fs := fs1 } path writeConsole
      reportText bodyFails
    ({ st2 with fs := closeH st2.fs path }, err)

/-- The directory targeted by `save_visual_report`: `none` when the path
does not exist, otherwise the names of the files it contains. -/
def VDir := Option (List String)
deriving instance DecidableEq, Repr for VDir

/-- The directory-preparation prefix of `save_visual_report` (lines 75-79):
`makedirs` when the path does not exist; `rmtree` then `makedirs` when it
exists and `clean` is set; otherwise the directory is left as-is. -/
def prepare_dir (dir : VDir) (clean : Bool) : VDir :=
  match dir with
  | none => some []
  | some c => if clean then some [] else some c

/-- Modelled from the spec: `_save_visual_report(path)` (abstract in `src/`)
writes rendered artifacts into the given existing directory; it may raise
after writing only a prefix of them (modelled by the `failAfter` behavior
input). -/
def save_visual_report_inner (contents : List String) (arts : List String)
    (failAfter : Option Nat) : List String × Option Err :=
  match failAfter with
  | none => (contents ++ arts, none)
  | some k => (contents ++ arts.take k, some .visualError)

/-- `AnalysisBase.save_visual_report(path, clean)`: prepares the directory
(creating, or cleaning and recreating it) and delegates to
`_save_visual_report(path)`. -/
def save_visual_report (dir : VDir) (clean : Bool) (arts : List String)
    (failAfter : Option Nat) : VDir × Option Err :=
  let d := prepare_dir dir clean
  let (c, err) := save_visual_report_inner (d.getD []) arts failAfter
  (some c, err)

/-! Concrete instances used by the witnesses, built after the spec's
"RareOutcome" example. -/

/-- A concrete helper with configuration value `2`. -/
def exHelper : Helper := ⟨2⟩

/-- The spec's example findings: one element `rare-1` holding one sample. -/
def exData : AData := ⟨[("rare-1", [⟨3, 1, 9, 7⟩])]⟩

/-- A concrete populated analysis of variant `RareOutcome`. -/
def exAnalysis : Analysis := AnalysisBase.init "RareOutcome" exHelper 1 exData

/-- A concrete analysis of a different variant. -/
def exAnalysisB : Analysis := AnalysisBase.init "FrequentState" exHelper 1 ⟨[]⟩

/-- A jsonpickle global state before any call (a different preferred
backend, no encoder options configured). -/
def jp0 : JsonpickleState := ⟨"simplejson", []⟩

/-- An empty filesystem on which every operation succeeds. -/
def exFSok : FS := ⟨[], [], [], []⟩

/-- A filesystem on which opening `out.json` for writing is denied. -/
def exFSro : FS := ⟨[], [], ["out.json"], []⟩

/-- A process state about to `save_json` onto the read-only path. -/
def exSJro : SJState := ⟨exAnalysis, jp0, exFSro⟩

/-- A process state about to `save_json` with everything healthy. -/
def exSJok : SJState := ⟨exAnalysis, jp0, exFSok⟩

/-- Serialized text as `save_json` produces for `exAnalysis`. -/
def exJson : JsonText :=
  ⟨"json", true, 4, { exAnalysis with agent := none, helper := none, config := none }⟩

/-- A filesystem holding one well-formed serialized analysis and one
malformed (plain-text) file. -/
def exFSload : FS := ⟨[("a.json", .json exJson), ("b.json", .text "oops")], [], [], []⟩

/-! Helper lemmas shared by the claim theorems. -/

theorem lookup_setFile (files : List (String × FileContent)) (p : String)
    (c : FileContent) : (setFile files p c).lookup p = some c := by
  simp [setFile, List.lookup]

theorem save_json_open_fail (st : SJState) (path : String)
    (hro : path ∈ st.fs.roPaths) :
    save_json st path =
      (⟨{ st.analysis with agent := none, helper := none, config := none },
        set_encoder_options (set_preferred_backend st.jp "json") "json" ⟨true, 4⟩,
        st.fs⟩, some .ioError) := by
  simp [save_json, pyOpenW, hro]

theorem save_json_write_fail (st : SJState) (path : String)
    (hro : path ∉ st.fs.roPaths) (hfu : path ∈ st.fs.fullPaths) :
    save_json st path =
      (⟨{ st.analysis with agent := none, helper := none, config := none },
        set_encoder_options (set_preferred_backend st.jp "json") "json" ⟨true, 4⟩,
        { files := setFile st.fs.files path (.text ""),
          openHandles := st.fs.openHandles,
          roPaths := st.fs.roPaths, fullPaths := st.fs.fullPaths }⟩,
       some .ioError) := by
  simp [save_json, pyOpenW, pyWrite, closeH, hro, hfu]

theorem save_json_ok (st : SJState) (path : String) (h : Helper)
    (hh : st.analysis.helper = some h)
    (hro : path ∉ st.fs.roPaths) (hfu : path ∉ st.fs.fullPaths) :
    save_json st path =
      (⟨{ st.analysis with helper := some h, config := some h.config },
        set_encoder_options (set_preferred_backend st.jp "json") "json" ⟨true, 4⟩,
        { files := setFile (setFile st.fs.files path (.text "")) path
            (.json ⟨"json", true, 4,
              { st.analysis with agent := none, helper := none, config := none }⟩),
          openHandles := st.fs.openHandles,
          roPaths := st.fs.roPaths, fullPaths := st.fs.fullPaths }⟩,
       none) := by
  simp [save_json, pyOpenW, pyWrite, closeH, jsonpickle_encode,
        set_encoder_options, set_preferred_backend, List.lookup,
        hro, hfu, hh]

/-! The claim theorems. -/

/-- C1 counterexample: a concrete analysis with bound agent, helper and
config on which `save_json` hits an I/O error at `open` — contrary to the
claim, the exception leaves `agent`, `helper` and `config` set to the
absent value instead of their pre-call values: the code has no
`try/finally`, so the restoring assignments after the `with` block are
skipped on the failure path. -/
theorem save_json_fields_lost_on_io_error :
    exSJro.analysis.agent = some 1 ∧
    exSJro.analysis.helper = some exHelper ∧
    exSJro.analysis.config = some 2 ∧
    (save_json exSJro "out.json").2 = some .ioError ∧
    ((save_json exSJro "out.json").1).analysis.agent = none ∧
    ((save_json exSJro "out.json").1).analysis.helper = none ∧
    ((save_json exSJro "out.json").1).analysis.config = none := by
  refine ⟨rfl, rfl, rfl, ?_, ?_, ?_, ?_⟩ <;> rfl

/-- C1 (amended): on a call of `save_json` that completes without an I/O
error, `agent`, `helper` and `config` are restored to their pre-call
values (under the constructor invariant `config = helper.config`); but if
opening the file or writing raises, the exception propagates with
`agent`, `helper` and `config` left at the absent value — they are not
restored. -/
theorem save_json_transient_fields (st : SJState) (path : String) (h : Helper)
    (hh : st.analysis.helper = some h) (hc : st.analysis.config = some h.config) :
    ((path ∉ st.fs.roPaths ∧ path ∉ st.fs.fullPaths) →
      (save_json st path).2 = none ∧
      ((save_json st path).1).analysis.agent = st.analysis.agent ∧
      ((save_json st path).1).analysis.helper = st.analysis.helper ∧
      ((save_json st path).1).analysis.config = st.analysis.config) ∧
    (path ∈ st.fs.roPaths →
      (save_json st path).2 = some .ioError ∧
      ((save_json st path).1).analysis.agent = none ∧
      ((save_json st path).1).analysis.helper = none ∧
      ((save_json st path).1).analysis.config = none) ∧
    ((path ∉ st.fs.roPaths ∧ path ∈ st.fs.fullPaths) →
      (save_json st path).2 = some .ioError ∧
      ((save_json st path).1).analysis.agent = none ∧
      ((save_json st path).1).analysis.helper = none ∧
      ((save_json st path).1).analysis.config = none) := by
  refine ⟨fun ⟨hro, hfu⟩ => ?_, fun hro => ?_, fun ⟨hro, hfu⟩ => ?_⟩
  · rw [save_json_ok st path h hh hro hfu]
    exact ⟨rfl, rfl, hh.symm, hc.symm⟩
  · rw [save_json_open_fail st path hro]
    exact ⟨rfl, rfl, rfl, rfl⟩
  · rw [save_json_write_fail st path hro hfu]
    exact ⟨rfl, rfl, rfl, rfl⟩

/-- Witness for the amended C1 theorem at concrete inputs: a healthy state
(fields restored, no error) and the read-only state (fields lost). -/
theorem save_json_transient_fields_witness :
    (exSJok.analysis.helper = some exHelper ∧
      exSJok.analysis.config = some exHelper.config ∧
      "out.json" ∉ exSJok.fs.roPaths ∧ "out.json" ∉ exSJok.fs.fullPaths ∧
      (save_json exSJok "out.json").2 = none ∧
      ((save_json exSJok "out.json").1).analysis.agent = exSJok.analysis.agent ∧
      ((save_json exSJok "out.json").1).analysis.helper = exSJok.analysis.helper ∧
      ((save_json exSJok "out.json").1).analysis.config = exSJok.analysis.config) ∧
    (exSJro.analysis.helper = some exHelper ∧
      exSJro.analysis.config = some exHelper.config ∧
      "out.json" ∈ exSJro.fs.roPaths ∧
      (save_json exSJro "out.json").2 = some .ioError ∧
      ((save_json exSJro "out.json").1).analysis.config = none) :=
  ⟨⟨rfl, rfl, by decide, by decide,
    ((save_json_transient_fields exSJok "out.json" exHelper rfl rfl).1
      ⟨by decide, by decide⟩).1,
    ((save_json_transient_fields exSJok "out.json" exHelper rfl rfl).1
      ⟨by decide, by decide⟩).2.1,
    ((save_json_transient_fields exSJok "out.json" exHelper rfl rfl).1
      ⟨by decide, by decide⟩).2.2.1,
    ((save_json_transient_fields exSJok "out.json" exHelper rfl rfl).1
      ⟨by decide, by decide⟩).2.2.2⟩,
   ⟨rfl, rfl, by decide,
    ((save_json_transient_fields exSJro "out.json" exHelper rfl rfl).2.1
      (by decide)).1,
    ((save_json_transient_fields exSJro "out.json" exHelper rfl rfl).2.1
      (by decide)).2.2.2⟩⟩

/-- C5: on a successful call, `save_json` writes to the path — overwriting
whatever content was stored there before, the prior content being
arbitrary in `st` — the serialization of the instance with `agent`,
`helper` and `config` excluded (encoded as the absent value), rendered
under the `json` backend with keys sorted and 4-space indentation. -/
theorem save_json_written_content (st : SJState) (path : String) (h : Helper)
    (hh : st.analysis.helper = some h)
    (hro : path ∉ st.fs.roPaths) (hfu : path ∉ st.fs.fullPaths) :
    (save_json st path).2 = none ∧
    ((save_json st path).1).fs.files.lookup path =
      some (.json ⟨"json", true, 4,
        { st.analysis with agent := none, helper := none, config := none }⟩) := by
  rw [save_json_ok st path h hh hro hfu]
  exact ⟨rfl, lookup_setFile _ _ _⟩

/-- Witness for C5 at a concrete state whose filesystem already holds stale
text at the target path, checking the written serialized content. -/
theorem save_json_written_content_witness :
    exAnalysis.helper = some exHelper ∧
    "out.json" ∉ exFSok.roPaths ∧ "out.json" ∉ exFSok.fullPaths ∧
    (save_json ⟨exAnalysis, jp0, { exFSok with
        files := [("out.json", .text "stale")] }⟩ "out.json").2 = none ∧
    ((save_json ⟨exAnalysis, jp0, { exFSok with
        files := [("out.json", .text "stale")] }⟩ "out.json").1).fs.files.lookup
        "out.json" =
      some (.json ⟨"json", true, 4,
        { exAnalysis with agent := none, helper := none, config := none }⟩) :=
  ⟨rfl, by decide, by decide,
   (save_json_written_content ⟨exAnalysis, jp0, { exFSok with
        files := [("out.json", .text "stale")] }⟩ "out.json" exHelper rfl
     (by decide) (by decide)).1,
   (save_json_written_content ⟨exAnalysis, jp0, { exFSok with
        files := [("out.json", .text "stale")] }⟩ "out.json" exHelper rfl
     (by decide) (by decide)).2⟩

/-- C9: every call of `save_json` — on every exit path, the failing ones
included, since the two jsonpickle setter calls precede the `open` —
leaves the process-global serializer configuration mutated: the preferred
backend is `json` and that backend's encoder options are
`sort_keys=True, indent=4`, persisting after the call returns. -/
theorem save_json_mutates_global_serializer (st : SJState) (path : String) :
    ((save_json st path).1).jp.preferred_backend = "json" ∧
    ((save_json st path).1).jp.encoder_options.lookup "json" =
      some ⟨true, 4⟩ := by
  have hjp : ((save_json st path).1).jp =
      set_encoder_options (set_preferred_backend st.jp "json") "json" ⟨true, 4⟩ := by
    simp only [save_json]
    split
    · rfl
    · split
      · rfl
      · split <;> rfl
  rw [hjp]
  exact ⟨rfl, by simp [set_encoder_options, set_preferred_backend, List.lookup]⟩

/-- C2: `save_report` opens the path for writing — truncating any existing
content before the delegation — hands the sink to `_save_report`, and
closes the handle on every exit path: when the body raises, the open
handle is released (the handle set is back to its pre-call value) and the
body's own exception propagates unwrapped; when the body succeeds, the
handle is likewise released and the rendered text is on disk. -/
theorem save_report_closes_on_all_paths (st : RState) (path : String)
    (wc : Bool) (txt : String) (hro : path ∉ st.fs.roPaths) :
    (∃ fs1, pyOpenW st.fs path = .ok fs1 ∧
        fs1.files.lookup path = some (.text "") ∧
        fs1.openHandles = path :: st.fs.openHandles) ∧
    ((save_report st path wc txt true).2 = some .reportError ∧
      ((save_report st path wc txt true).1).fs.openHandles = st.fs.openHandles) ∧
    (path ∉ st.fs.fullPaths →
      (save_report st path wc txt false).2 = none ∧
      ((save_report st path wc txt false).1).fs.openHandles = st.fs.openHandles ∧
      ((save_report st path wc txt false).1).fs.files.lookup path =
        some (.text txt)) := by
  refine ⟨⟨FS.mk (setFile st.fs.files path (.text ""))
      (path :: st.fs.openHandles) st.fs.roPaths st.fs.fullPaths,
      by simp [pyOpenW, hro], lookup_setFile _ _ _, rfl⟩, ⟨?_, ?_⟩,
    fun hfu => ⟨?_, ?_, ?_⟩⟩ <;>
    simp [save_report, save_report_inner, pyOpenW, pyWrite, closeH,
      lookup_setFile, hro, *]

/-- Witness for C2 at a concrete state: open succeeds and truncates, a
failing body still leaves the handle closed, a successful body writes the
text. -/
theorem save_report_closes_on_all_paths_witness :
    "r.txt" ∉ (RState.mk exFSok []).fs.roPaths ∧
    (∃ fs1, pyOpenW (RState.mk exFSok []).fs "r.txt" = .ok fs1 ∧
        fs1.files.lookup "r.txt" = some (.text "") ∧
        fs1.openHandles = "r.txt" :: (RState.mk exFSok []).fs.openHandles) ∧
    (save_report (RState.mk exFSok []) "r.txt" true "hello" true).2 =
      some .reportError ∧
    ((save_report (RState.mk exFSok []) "r.txt" true "hello" true).1).fs.openHandles =
      (RState.mk exFSok []).fs.openHandles ∧
    (save_report (RState.mk exFSok []) "r.txt" true "hello" false).2 = none ∧
    ((save_report (RState.mk exFSok []) "r.txt" true "hello" false).1).fs.files.lookup
        "r.txt" = some (.text "hello") :=
  ⟨by decide,
   (save_report_closes_on_all_paths (RState.mk exFSok []) "r.txt" true "hello"
      (by decide)).1,
   ((save_report_closes_on_all_paths (RState.mk exFSok []) "r.txt" true "hello"
      (by decide)).2.1).1,
   ((save_report_closes_on_all_paths (RState.mk exFSok []) "r.txt" true "hello"
      (by decide)).2.1).2,
   ((save_report_closes_on_all_paths (RState.mk exFSok []) "r.txt" true "hello"
      (by decide)).2.2 (by decide)).1,
   ((save_report_closes_on_all_paths (RState.mk exFSok []) "r.txt" true "hello"
      (by decide)).2.2 (by decide)).2.2⟩

/-- C3: with `clean` set, `save_visual_report` hands `_save_visual_report`
an existing empty directory whatever the prior state of the path was — a
missing path is created, an existing one is recursively removed and
recreated empty, so no pre-existing file survives into the delegated
call — and two successive calls leave exactly the second call's
artifacts. -/
theorem save_visual_report_clean_empties (d : VDir) (arts1 arts2 : List String) :
    prepare_dir d true = some [] ∧
    (save_visual_report d true arts1 none).1 = some arts1 ∧
    (save_visual_report (save_visual_report d true arts1 none).1 true arts2
        none).1 = some arts2 := by
  rcases d with _ | c <;>
    simp [prepare_dir, save_visual_report, save_visual_report_inner]

/-- C4: with `clean` unset on an existing directory, `save_visual_report`
performs no removal or recreation: the delegated call receives the
directory exactly as it was, every pre-existing file is still present in
it, and a delegate that only adds artifacts leaves them all in place. -/
theorem save_visual_report_noclean_preserves (c arts : List String) :
    prepare_dir (some c) false = some c ∧
    (save_visual_report (some c) false arts none).1 = some (c ++ arts) ∧
    c ⊆ c ++ arts := by
  refine ⟨rfl, ?_, List.subset_append_left _ _⟩
  simp [save_visual_report, prepare_dir, save_visual_report_inner]

/-- C10: with `clean` set on an existing directory, when the delegated
`_save_visual_report` raises after producing only a prefix of its
artifacts, the caller observes the propagated error and a recreated
directory holding just that prefix — the pre-existing contents `c` were
removed before the delegation and do not appear in the result, whatever
they were: the operation is not atomic and nothing is restored. -/
theorem save_visual_report_not_atomic (c arts : List String) (k : Nat) :
    save_visual_report (some c) true arts (some k) =
      (some (arts.take k), some .visualError) := by
  simp [save_visual_report, prepare_dir, save_visual_report_inner]

/-- C6: `load_json` on a path holding serialized text returns the decoded
object after invoking `_after_loaded_json()` on it exactly once, with no
error; on a missing file the I/O error propagates and the hook is never
invoked; on malformed (non-decodable) content the decode error propagates
and the hook is never invoked. -/
theorem load_json_behavior (fs : FS) (path : String) :
    (∀ j : JsonText, fs.files.lookup path = some (.json j) →
        load_json fs path = ⟨some (after_loaded_json j.payload), 1, none⟩) ∧
    (fs.files.lookup path = none →
        load_json fs path = ⟨none, 0, some .ioError⟩) ∧
    (∀ s : String, fs.files.lookup path = some (.text s) →
        load_json fs path = ⟨none, 0, some .decodeError⟩) := by
  refine ⟨fun j hj => ?_, fun hn => ?_, fun s hs => ?_⟩ <;>
    simp [load_json, pyOpenR, jsonpickle_decode, *]

/-- Witness for C6: the three cases at a concrete filesystem — a
well-formed file, a missing file, and a malformed file. -/
theorem load_json_behavior_witness :
    exFSload.files.lookup "a.json" = some (.json exJson) ∧
    load_json exFSload "a.json" = ⟨some (after_loaded_json exJson.payload), 1, none⟩ ∧
    exFSload.files.lookup "missing.json" = none ∧
    load_json exFSload "missing.json" = ⟨none, 0, some .ioError⟩ ∧
    exFSload.files.lookup "b.json" = some (.text "oops") ∧
    load_json exFSload "b.json" = ⟨none, 0, some .decodeError⟩ :=
  ⟨rfl, (load_json_behavior exFSload "a.json").1 exJson rfl,
   rfl, (load_json_behavior exFSload "missing.json").2.1 rfl,
   rfl, (load_json_behavior exFSload "b.json").2.2 "oops" rfl⟩

/-- C7: round trip — after a successful `save_json`, `load_json` on the
written file succeeds and returns an object that agrees with the original
analysis on `get_interestingness_names()`, `get_stats()` and
`get_sample_interesting_aspects(s, a, r, ns)` for every sample, while its
`agent`, `helper` and `config` bindings are absent. -/
theorem save_load_round_trip (st : SJState) (path : String) (h : Helper)
    (hh : st.analysis.helper = some h)
    (hro : path ∉ st.fs.roPaths) (hfu : path ∉ st.fs.fullPaths) :
    ∃ B : Analysis,
      (load_json ((save_json st path).1).fs path).result = some B ∧
      (load_json ((save_json st path).1).fs path).err = none ∧
      get_interestingness_names B = get_interestingness_names st.analysis ∧
      get_stats B = get_stats st.analysis ∧
      (∀ s a : Nat, ∀ r : Int, ∀ ns : Nat,
        get_sample_interesting_aspects B s a r ns =
          get_sample_interesting_aspects st.analysis s a r ns) ∧
      B.agent = none ∧ B.helper = none ∧ B.config = none := by
  refine ⟨{ st.analysis with agent := none, helper := none, config := none },
    ?_, ?_, rfl, rfl, fun s a r ns => rfl, rfl, rfl, rfl⟩ <;>
  · rw [save_json_ok st path h hh hro hfu]
    simp [load_json, pyOpenR, lookup_setFile, jsonpickle_decode, after_loaded_json]

/-- Witness for C7 at the concrete populated `RareOutcome` analysis. -/
theorem save_load_round_trip_witness :
    exSJok.analysis.helper = some exHelper ∧
    "out.json" ∉ exSJok.fs.roPaths ∧ "out.json" ∉ exSJok.fs.fullPaths ∧
    ∃ B : Analysis,
      (load_json ((save_json exSJok "out.json").1).fs "out.json").result = some B ∧
      (load_json ((save_json exSJok "out.json").1).fs "out.json").err = none ∧
      get_interestingness_names B = get_interestingness_names exSJok.analysis ∧
      get_stats B = get_stats exSJok.analysis ∧
      (∀ s a : Nat, ∀ r : Int, ∀ ns : Nat,
        get_sample_interesting_aspects B s a r ns =
          get_sample_interesting_aspects exSJok.analysis s a r ns) ∧
      B.agent = none ∧ B.helper = none ∧ B.config = none :=
  ⟨rfl, by decide, by decide,
   save_load_round_trip exSJok "out.json" exHelper rfl (by decide) (by decide)⟩

/-- C8: `difference_to` between analyses of different concrete variants
fails with a type/contract error instead of returning a result. -/
theorem difference_to_variant_mismatch (a b : Analysis)
    (h : a.variant ≠ b.variant) :
    difference_to a b = .error .typeError := by
  simp [difference_to, h]

/-- Witness for C8: the `RareOutcome` and `FrequentState` instances. -/
theorem difference_to_variant_mismatch_witness :
    exAnalysis.variant ≠ exAnalysisB.variant ∧
    difference_to exAnalysis exAnalysisB = .error .typeError :=
  ⟨by decide, difference_to_variant_mismatch exAnalysis exAnalysisB (by decide)⟩

end InterestingnessXRL
